import Mathlib

/-!
Shallow embedding of `script.js` (portfolio page: 3D particle background,
window-resize handling, top-level module evaluation, and the contact-form
submit handler), together with theorems settling the specification claims.

JavaScript numbers are modelled as exact rationals (`ℚ`); the JS value
`undefined` is modelled by `Option.none` where it can actually arise.
DOM and host state that the script reads (canvas presence, viewport size,
device pixel ratio, the `Math.random` stream) is passed in explicitly.
-/

set_option maxRecDepth 8000

namespace Portfolio

/-- Exact rational value of the IEEE-754 double `Math.PI`
(`0x400921FB54442D18` = 884279719003555 · 2⁻⁴⁸). -/
def mathPI : ℚ := 884279719003555 / 281474976710656

/-- One particle mesh: position (`particle.position.set(x, y, z)`),
rotation as stored by `particle.rotation.set(...)` (components may be the
JS value `undefined`, modelled as `none`), and the uniform scale factor
used in `particle.scale.set(scale, scale, scale)`. -/
structure Particle where
  posX : ℚ
  posY : ℚ
  posZ : ℚ
  rotX : Option ℚ
  rotY : Option ℚ
  rotZ : Option ℚ
  scale : ℚ
  deriving Repr, DecidableEq

/-- Construction of the `i`-th particle in the loop of `init3DBackground`
(source lines 49–68). `rand` is the `Math.random` stream; the `i`-th
particle consumes draws `6*i .. 6*i+5` in source order: three position
draws, the first rotation axis, the third rotation axis, then the scale.
The second rotation argument in the source is `Math.react`, which is not a
property of `Math` and therefore evaluates to `undefined` (no draw is
consumed): the stored y-rotation is `none`. -/
def mkParticle (rand : Nat → ℚ) (i : Nat) : Particle :=
  { posX := (rand (6 * i) - 0.5) * 50
    posY := (rand (6 * i + 1) - 0.5) * 50
    posZ := (rand (6 * i + 2) - 0.5) * 50
    rotX := some (rand (6 * i + 3) * mathPI)
    rotY := none
    rotZ := some (rand (6 * i + 4) * mathPI)
    scale := rand (6 * i + 5) * 0.5 + 0.5 }

/-- The list of `particleCount = 500` particles added to the group. -/
def mkParticles (rand : Nat → ℚ) (count : Nat) : List Particle :=
  (List.range count).map (mkParticle rand)

/-- The `THREE.Group` holding the particles: its own rotation (a fresh
group starts at rotation zero on every axis) and its children. -/
structure GroupState where
  rotX : ℚ
  rotY : ℚ
  rotZ : ℚ
  particles : List Particle
  deriving Repr, DecidableEq

/-- The `THREE.Scene`: we track the number of lights added to it and
whether the particle group was added. -/
structure SceneObj where
  lightCount : Nat
  groupAttached : Bool
  deriving Repr, DecidableEq

/-- The `THREE.PerspectiveCamera(75, w/h, 0.1, 1000)` with
`camera.position.z = 15`. -/
structure CameraObj where
  fov : ℚ
  aspect : ℚ
  near : ℚ
  far : ℚ
  posZ : ℚ
  deriving Repr, DecidableEq

/-- The `THREE.WebGLRenderer` after its configuration calls: size from
`renderer.setSize`, pixel ratio from `renderer.setPixelRatio`, clear color
from `renderer.setClearColor`, and the `alpha: true` creation option. -/
structure RendererObj where
  width : ℚ
  height : ℚ
  pixelRatio : ℚ
  clearColor : Nat
  alpha : Bool
  deriving Repr, DecidableEq

/-- The module-level mutable state of the 3D-background section
(`let scene, camera, renderer, particles, group;`) plus the observable
side effects the claims talk about: whether the canvas was hidden, whether
the animation loop was started (a next-frame callback is pending), whether
the resize listener was registered, the `console.error` log, and how many
times scene construction was attempted. -/
structure BgState where
  scene : Option SceneObj
  camera : Option CameraObj
  renderer : Option RendererObj
  group : Option GroupState
  canvasHidden : Bool
  loopStarted : Bool
  resizeListenerAdded : Bool
  errorsLogged : List String
  constructionAttempts : Nat
  deriving Repr, DecidableEq

/-- Module state before `init3DBackground()` runs: every global unset,
no side effect performed. -/
def initialBgState : BgState :=
  { scene := none, camera := none, renderer := none, group := none
    canvasHidden := false, loopStarted := false, resizeListenerAdded := false
    errorsLogged := [], constructionAttempts := 0 }

/-- Host/DOM environment read by the 3D-background section: whether
`document.getElementById('bg-canvas')` resolves to an element, and the
`window` metrics. -/
structure DomEnv where
  canvasPresent : Bool
  innerWidth : ℚ
  innerHeight : ℚ
  devicePixelRatio : ℚ
  deriving Repr, DecidableEq

/-- Body of `animate()` (source lines 101–111): re-register the next-frame
callback (`requestAnimationFrame(animate)` — the loop stays active), then,
if `group` is set, increment the group rotation about the x and y axes by
0.0005 each. `renderer.render(scene, camera)` has no effect on the
modelled state. -/
def animateStep (s : BgState) : BgState :=
  let s1 : BgState := { s with loopStarted := true }
  match s1.group with
  | none => s1
  | some g =>
      { s1 with group := some { g with rotX := g.rotX + 0.0005, rotY := g.rotY + 0.0005 } }

/-- N invocations of the per-frame callback `animate()`. -/
def tickN : Nat → BgState → BgState
  | 0, s => s
  | n + 1, s => tickN n (animateStep s)

/-- Step 1 of the try body: `scene = new THREE.Scene()`. -/
def stepScene (s : BgState) : BgState :=
  { s with scene := some { lightCount := 0, groupAttached := false } }

/-- Step 2: `camera = new THREE.PerspectiveCamera(75, w/h, 0.1, 1000)`
and `camera.position.z = 15`. -/
def stepCamera (env : DomEnv) (s : BgState) : BgState :=
  let c : CameraObj :=
    { fov := 75, aspect := env.innerWidth / env.innerHeight
      near := 0.1, far := 1000, posZ := 15 }
  { s with camera := some c }

/-- Step 3: `renderer = new THREE.WebGLRenderer(...)` followed by
`setSize(w, h)`, `setPixelRatio(Math.min(devicePixelRatio, 2))` and
`setClearColor(0x0A192F, 1)`. -/
def stepRenderer (env : DomEnv) (s : BgState) : BgState :=
  let r : RendererObj :=
    { width := env.innerWidth, height := env.innerHeight
      pixelRatio := min env.devicePixelRatio 2
      clearColor := 0x0A192F, alpha := true }
  { s with renderer := some r }

/-- Step 4: `group = new THREE.Group()` (rotation zero on every axis),
the particle loop, and `scene.add(group)`. -/
def stepParticles (rand : Nat → ℚ) (s : BgState) : BgState :=
  { s with
      group := some { rotX := 0, rotY := 0, rotZ := 0, particles := mkParticles rand 500 }
      scene := s.scene.map (fun sc => { sc with groupAttached := true }) }

/-- Step 5: add the ambient light and the point light to the scene. -/
def stepLights (s : BgState) : BgState :=
  { s with scene := s.scene.map (fun sc => { sc with lightCount := sc.lightCount + 2 }) }

/-- Step 6: `window.addEventListener('resize', onWindowResize, false)`. -/
def stepResizeListener (s : BgState) : BgState :=
  { s with resizeListenerAdded := true }

/-- Step 7: the direct call `animate()` at the end of the try body. -/
def stepAnimate (s : BgState) : BgState :=
  animateStep s

/-- The statements of the try body of `init3DBackground` that follow the
canvas check, in source order. -/
def trySteps (env : DomEnv) (rand : Nat → ℚ) : List (BgState → BgState) :=
  [stepScene, stepCamera env, stepRenderer env, stepParticles rand,
   stepLights, stepResizeListener, stepAnimate]

/-- Run a sequence of statements that may raise: `failAt = some k` means
the `k`-th statement (0-based) throws before performing its effect; the
result records whether an exception escaped the sequence and the state at
that moment (partial assignments to the module globals persist). -/
def runTry : List (BgState → BgState) → Option Nat → BgState → Bool × BgState
  | [], _, s => (false, s)
  | f :: rest, failAt, s =>
      if failAt = some 0 then (true, s)
      else runTry rest (failAt.map (fun k => k - 1)) (f s)

/-- The `catch` block of `init3DBackground` (source lines 85–91): log the
error and, if `document.getElementById('bg-canvas')` still resolves, hide
the canvas. It performs no retry and raises nothing. -/
def catchHandler (env : DomEnv) (s : BgState) : BgState :=
  let s1 : BgState :=
    { s with errorsLogged := s.errorsLogged ++ ["Error initializing 3D background:"] }
  if env.canvasPresent then { s1 with canvasHidden := true } else s1

/-- The whole of `init3DBackground()` (source lines 13–92). If the canvas
is absent the try body logs `"3D Canvas not found."` and returns early;
otherwise the construction statements run, any exception among them
(`failAt`) being absorbed by the catch block. The function is total: no
exception propagates to the caller. -/
def init3DBackground (env : DomEnv) (rand : Nat → ℚ) (failAt : Option Nat) : BgState :=
  if env.canvasPresent then
    let s0 : BgState := { initialBgState with constructionAttempts := 1 }
    let r := runTry (trySteps env rand) failAt s0
    if r.1 then catchHandler env r.2 else r.2
  else
    { initialBgState with errorsLogged := ["3D Canvas not found."] }

/-- Whether an exception is raised inside the try body of
`init3DBackground` when the canvas is present and statement `failAt`
throws. -/
def tryThrew (env : DomEnv) (rand : Nat → ℚ) (failAt : Option Nat) : Bool :=
  (runTry (trySteps env rand) failAt { initialBgState with constructionAttempts := 1 }).1

/-- `onWindowResize` (source lines 94–99): it reads `camera` and
`renderer` with no guard, so on a state where either is unset it faults
(`Except.error`); otherwise it writes the new aspect ratio, surface size
and pixel ratio. -/
def onWindowResize (env : DomEnv) (s : BgState) : Except Unit BgState :=
  match s.camera with
  | none => Except.error ()
  | some c =>
      let c2 : CameraObj := { c with aspect := env.innerWidth / env.innerHeight }
      match s.renderer with
      | none => Except.error ()
      | some r =>
          Except.ok { s with
            camera := some c2
            renderer := some { r with
              width := env.innerWidth, height := env.innerHeight
              pixelRatio := min env.devicePixelRatio 2 } }

/-- Environment of the whole module evaluation: the DOM environment of
the 3D section plus the host-injected globals of the Firebase section
(`__firebase_config` may be absent, and when injected may or may not be a
string that `JSON.parse` accepts). -/
structure PageEnv where
  dom : DomEnv
  firebaseConfigInjected : Bool
  injectedConfigParses : Bool
  deriving Repr, DecidableEq

/-- Return value of `document.addEventListener(...)`: the DOM API returns
`undefined`, which is not callable. `none` models a non-function value. -/
def addEventListenerReturn : Option Unit := none

/-- Calling a JS value as a function: calling anything that is not a
function raises a `TypeError`. -/
def callAsFunction (v : Option Unit) : Except Unit Unit :=
  match v with
  | none => Except.error ()
  | some _ => Except.ok ()

/-- Result of evaluating the module's top level: the 3D-background state,
whether the `DOMContentLoaded` listener was registered, whether the final
statement `initializeFirebase()` (source line 274) was reached, and
whether evaluation ended in an uncaught exception. -/
structure TopResult where
  bg : BgState
  domListenerRegistered : Bool
  firebaseInitCalled : Bool
  faulted : Bool
  deriving Repr, DecidableEq

/-- Top-level evaluation of `script.js` in source order:
`init3DBackground()` (line 114, total, absorbs its own errors), then the
`JSON.parse` of the injected config (line 131, throws when an injected
string is not valid JSON), then line 168–270:
`document.addEventListener('DOMContentLoaded', cb)();` — the listener is
registered, `addEventListener` returns `undefined`, and the trailing `()`
calls that `undefined`, raising a `TypeError` that aborts module
evaluation, so `initializeFirebase()` on line 274 is never reached. -/
def topLevelEval (env : PageEnv) (rand : Nat → ℚ) (failAt : Option Nat) : TopResult :=
  let bg := init3DBackground env.dom rand failAt
  if env.firebaseConfigInjected && !env.injectedConfigParses then
    { bg := bg, domListenerRegistered := false, firebaseInitCalled := false, faulted := true }
  else
    match callAsFunction addEventListenerReturn with
    | Except.error _ =>
        { bg := bg, domListenerRegistered := true, firebaseInitCalled := false, faulted := true }
    | Except.ok _ =>
        { bg := bg, domListenerRegistered := true, firebaseInitCalled := true, faulted := false }

/-- The submit button: its `disabled` flag and its `innerHTML`. -/
structure ButtonState where
  disabled : Bool
  innerHTML : String
  deriving Repr, DecidableEq

/-- DOM state touched by the contact-form submit handler: the button, the
`#form-message` element (text and class) and whether `contactForm.reset()`
was performed. -/
structure ContactFormState where
  button : ButtonState
  formMessage : String
  formMessageClass : String
  formWasReset : Bool
  deriving Repr, DecidableEq

/-- Firebase-side module state read by the handler: whether `db` was set
and the `userId` value (`none` models `undefined`). -/
structure FirebaseCtx where
  dbSet : Bool
  userId : Option String
  deriving Repr, DecidableEq

/-- One submission attempt: the three field values and whether the
`addDoc` write to the document store throws. The mock forwarding step
(`emailStatus = "success"`) cannot fail in the source. -/
structure SubmitAttempt where
  name : String
  email : String
  message : String
  addDocThrows : Bool
  deriving Repr, DecidableEq

/-- A document written to the `contact_messages` collection. -/
structure SavedDoc where
  name : String
  email : String
  message : String
  status : String
  deriving Repr, DecidableEq

/-- JS truthiness of the `userId` string variable: `undefined` and the
empty string are falsy. -/
def truthyString (v : Option String) : Bool :=
  match v with
  | none => false
  | some s => !(s == "")

/-- CSS class used for error messages. -/
def redMsgClass : String := "mt-4 text-center text-red-400 text-sm font-medium"

/-- CSS class used while the submission is in flight. -/
def yellowMsgClass : String := "mt-4 text-center text-yellow-400 text-sm font-medium"

/-- CSS class used for the success message. -/
def greenMsgClass : String := "mt-4 text-center text-green-400 text-sm font-medium"

/-- Button label set while sending (source line 229). -/
def sendingLabel : String := "<span classclass=\"animate-spin mr-2\">...</span>Sending..."

/-- The contact-form submit handler (source lines 211–268). Returns the
new DOM state and the new list of stored documents. If the connection
check fails the handler returns early with an error message and the
button untouched; otherwise the button is disabled and relabelled, the
try block either stores the document and shows the success message and
resets the form, or (when `addDoc` throws) the catch block shows the
error message; the finally block then re-enables the button and restores
its original label in every case. -/
def onSubmit (fb : FirebaseCtx) (att : SubmitAttempt) (st : ContactFormState)
    (saved : List SavedDoc) : ContactFormState × List SavedDoc :=
  if !(fb.dbSet && truthyString fb.userId) then
    ({ st with formMessage := "Error: Connection not established. Please refresh."
               formMessageClass := redMsgClass }, saved)
  else
    let originalButtonText := st.button.innerHTML
    let st1 : ContactFormState :=
      { st with button := { disabled := true, innerHTML := sendingLabel }
                formMessageClass := yellowMsgClass
                formMessage := "Submitting message..." }
    let tryResult : ContactFormState × List SavedDoc :=
      if att.addDocThrows then
        ({ st1 with formMessageClass := redMsgClass
                    formMessage := "An error occurred. Please try again later." }, saved)
      else
        let saved2 := saved ++
          [{ name := att.name, email := att.email, message := att.message, status := "new" }]
        ({ st1 with formMessageClass := greenMsgClass
                    formMessage := "Thanks for your response, " ++ att.name ++
                      "! Your message has been saved and forwarded."
                    formWasReset := true }, saved2)
    ({ tryResult.1 with button := { disabled := false, innerHTML := originalButtonText } },
     tryResult.2)

section Helpers

/-- Sample DOM environment used to instantiate hypotheses at concrete
inputs: canvas present, 800×600 viewport, device pixel ratio 1. -/
def sampleEnv : DomEnv := { canvasPresent := true, innerWidth := 800, innerHeight := 600, devicePixelRatio := 1 }

/-- Sample `Math.random` stream, constantly 1/2. -/
def sampleRand : Nat → ℚ := fun _ => 1/2

theorem mkParticles_length (rand : Nat → ℚ) (n : Nat) :
    (mkParticles rand n).length = n := by
  simp [mkParticles]

/-- The state `init3DBackground` produces when the canvas is present and
construction does not throw: everything is constructed, the loop is
active, and — because the try body ends with a direct call to `animate()`
which immediately increments the group rotation — the group rotation on
the x and y axes is already 0.0005, not 0. -/
theorem init_success (env : DomEnv) (rand : Nat → ℚ) (h : env.canvasPresent = true) :
    init3DBackground env rand none =
      { scene := some { lightCount := 2, groupAttached := true }
        camera := some { fov := 75, aspect := env.innerWidth / env.innerHeight
                         near := 0.1, far := 1000, posZ := 15 }
        renderer := some { width := env.innerWidth, height := env.innerHeight
                           pixelRatio := min env.devicePixelRatio 2
                           clearColor := 0x0A192F, alpha := true }
        group := some { rotX := 0.0005, rotY := 0.0005, rotZ := 0
                        particles := mkParticles rand 500 }
        canvasHidden := false, loopStarted := true, resizeListenerAdded := true
        errorsLogged := [], constructionAttempts := 1 } := by
  obtain ⟨cp, w, ht, d⟩ := env
  simp only [DomEnv.canvasPresent] at h
  subst h
  simp [init3DBackground, runTry, trySteps, stepScene, stepCamera, stepRenderer,
    stepParticles, stepLights, stepResizeListener, stepAnimate, animateStep, initialBgState]

theorem animateStep_group (s : BgState) (g : GroupState) (h : s.group = some g) :
    (animateStep s).group =
      some { g with rotX := g.rotX + 0.0005, rotY := g.rotY + 0.0005 } := by
  simp [animateStep, h]

theorem tickN_group (n : Nat) : ∀ (s : BgState) (g : GroupState), s.group = some g →
    (tickN n s).group =
      some { g with rotX := g.rotX + n * 0.0005, rotY := g.rotY + n * 0.0005 } := by
  induction n with
  | zero =>
      intro s g h
      obtain ⟨gx, gy, gz, ps⟩ := g
      simp [tickN, h]
  | succ m ih =>
      intro s g h
      have h2 := animateStep_group s g h
      have h3 := ih (animateStep s) _ h2
      obtain ⟨gx, gy, gz, ps⟩ := g
      simp only [tickN, h3, Option.some.injEq, GroupState.mk.injEq, and_true, true_and,
        eq_self_iff_true]
      constructor <;> · push_cast; ring

/-- Successful `onWindowResize` on any state whose camera and renderer
are set, with the resulting state spelled out. -/
theorem onWindowResize_ok (env : DomEnv) (s : BgState) (c : CameraObj) (r : RendererObj)
    (hc : s.camera = some c) (hr : s.renderer = some r) :
    onWindowResize env s = Except.ok
      { s with camera := some { c with aspect := env.innerWidth / env.innerHeight }
               renderer := some { r with width := env.innerWidth, height := env.innerHeight
                                         pixelRatio := min env.devicePixelRatio 2 } } := by
  simp [onWindowResize, hc, hr]

end Helpers

/-- Claim C2: for every viewport W×H with W, H > 0, after `onWindowResize`
(on a state where camera and renderer exist) the camera aspect ratio is
exactly W/H and the renderer pixel density is min(devicePixelRatio, 2). -/
theorem claim2_resize_aspect_and_density (env : DomEnv) (s : BgState)
    (c : CameraObj) (r : RendererObj)
    (hw : 0 < env.innerWidth) (hh : 0 < env.innerHeight)
    (hc : s.camera = some c) (hr : s.renderer = some r) :
    ∃ (s2 : BgState) (c2 : CameraObj) (r2 : RendererObj),
      onWindowResize env s = Except.ok s2 ∧
      s2.camera = some c2 ∧ c2.aspect = env.innerWidth / env.innerHeight ∧
      s2.renderer = some r2 ∧ r2.pixelRatio = min env.devicePixelRatio 2 :=
  ⟨_, { c with aspect := env.innerWidth / env.innerHeight },
   { r with width := env.innerWidth, height := env.innerHeight
            pixelRatio := min env.devicePixelRatio 2 },
   onWindowResize_ok env s c r hc hr, rfl, rfl, rfl, rfl⟩

/-- Witness for C2 at a concrete 800×600 viewport. -/
theorem claim2_resize_aspect_and_density_witness :
    ∃ (s2 : BgState) (c2 : CameraObj) (r2 : RendererObj),
      onWindowResize sampleEnv
        { initialBgState with
            camera := some { fov := 75, aspect := 1, near := 0.1, far := 1000, posZ := 15 }
            renderer := some { width := 10, height := 10, pixelRatio := 1
                               clearColor := 0x0A192F, alpha := true } } = Except.ok s2 ∧
      s2.camera = some c2 ∧ c2.aspect = sampleEnv.innerWidth / sampleEnv.innerHeight ∧
      s2.renderer = some r2 ∧ r2.pixelRatio = min sampleEnv.devicePixelRatio 2 :=
  claim2_resize_aspect_and_density sampleEnv _ _ _ (by norm_num [sampleEnv])
    (by norm_num [sampleEnv]) rfl rfl

/-- Claim C4: when the canvas element is absent, `init3DBackground`
returns normally having only logged `"3D Canvas not found."`: no
scene/camera/renderer/group is retained, the animation loop is not
started, and nothing is hidden. -/
theorem claim4_missing_canvas_noop (env : DomEnv) (rand : Nat → ℚ)
    (failAt : Option Nat) (h : env.canvasPresent = false) :
    init3DBackground env rand failAt =
      { initialBgState with errorsLogged := ["3D Canvas not found."] } ∧
    (init3DBackground env rand failAt).scene = none ∧
    (init3DBackground env rand failAt).camera = none ∧
    (init3DBackground env rand failAt).renderer = none ∧
    (init3DBackground env rand failAt).loopStarted = false ∧
    (init3DBackground env rand failAt).canvasHidden = false ∧
    (init3DBackground env rand failAt).errorsLogged = ["3D Canvas not found."] := by
  refine ⟨?_, ?_, ?_, ?_, ?_, ?_, ?_⟩ <;> simp [init3DBackground, h, initialBgState]

/-- Witness for C4: canvas absent in an 800×600 viewport. -/
theorem claim4_missing_canvas_noop_witness :
    init3DBackground { sampleEnv with canvasPresent := false } sampleRand none =
      { initialBgState with errorsLogged := ["3D Canvas not found."] } ∧
    (init3DBackground { sampleEnv with canvasPresent := false } sampleRand none).scene = none ∧
    (init3DBackground { sampleEnv with canvasPresent := false } sampleRand none).camera = none ∧
    (init3DBackground { sampleEnv with canvasPresent := false } sampleRand none).renderer = none ∧
    (init3DBackground { sampleEnv with canvasPresent := false } sampleRand none).loopStarted = false ∧
    (init3DBackground { sampleEnv with canvasPresent := false } sampleRand none).canvasHidden = false ∧
    (init3DBackground { sampleEnv with canvasPresent := false } sampleRand none).errorsLogged
      = ["3D Canvas not found."] :=
  claim4_missing_canvas_noop { sampleEnv with canvasPresent := false } sampleRand none rfl

/-- Claim C6: with the canvas present and an 800×600 viewport,
`init3DBackground` completes with camera aspect 800/600 = 4/3, exactly
500 particles in the group, and the animation loop active. -/
theorem claim6_scenario_800_600 (d : ℚ) (rand : Nat → ℚ) :
    (init3DBackground { sampleEnv with devicePixelRatio := d } rand none).loopStarted = true ∧
    (∃ c : CameraObj,
      (init3DBackground { sampleEnv with devicePixelRatio := d } rand none).camera = some c ∧
      c.aspect = 4 / 3) ∧
    (∃ g : GroupState,
      (init3DBackground { sampleEnv with devicePixelRatio := d } rand none).group = some g ∧
      g.particles.length = 500) := by
  rw [init_success _ rand rfl]
  refine ⟨rfl, ⟨_, rfl, ?_⟩, ⟨_, rfl, ?_⟩⟩
  · norm_num [sampleEnv]
  · exact mkParticles_length rand 500

/-- Claim C7: `onWindowResize` has no guard for the uninitialized state:
on the pre-initialization module state it faults (error branch), while
on any state with camera and renderer set — in particular the state
produced by a successful `init3DBackground` — it returns normally. -/
theorem claim7_resize_unguarded :
    (∀ env : DomEnv, onWindowResize env initialBgState = Except.error ()) ∧
    (∀ (env : DomEnv) (s : BgState) (c : CameraObj) (r : RendererObj),
      s.camera = some c → s.renderer = some r →
      ∃ s2, onWindowResize env s = Except.ok s2) ∧
    (∀ (envR envI : DomEnv) (rand : Nat → ℚ), envI.canvasPresent = true →
      ∃ s2, onWindowResize envR (init3DBackground envI rand none) = Except.ok s2) := by
  refine ⟨?_, ?_, ?_⟩
  · intro env
    simp [onWindowResize, initialBgState]
  · intro env s c r hc hr
    exact ⟨_, onWindowResize_ok env s c r hc hr⟩
  · intro envR envI rand h
    rw [init_success envI rand h]
    exact ⟨_, onWindowResize_ok envR _ _ _ rfl rfl⟩

/-- Witness for C7: the fault on the uninitialized state and the normal
return after a successful initialization, at concrete inputs. -/
theorem claim7_resize_unguarded_witness :
    (onWindowResize sampleEnv initialBgState = Except.error ()) ∧
    (∃ s2, onWindowResize sampleEnv (init3DBackground sampleEnv sampleRand none)
      = Except.ok s2) :=
  ⟨claim7_resize_unguarded.1 sampleEnv,
   claim7_resize_unguarded.2.2 sampleEnv sampleEnv sampleRand rfl⟩

section TryRunner

theorem runTry_throws : ∀ (steps : List (BgState → BgState)) (k : Nat) (s : BgState),
    k < steps.length → (runTry steps (some k) s).1 = true := by
  intro steps
  induction steps with
  | nil => intro k s hk; simp at hk
  | cons f rest ih =>
      intro k s hk
      cases k with
      | zero => simp [runTry]
      | succ j =>
          simp only [runTry, Option.map, Nat.add_sub_cancel, Option.some.injEq,
            Nat.succ_ne_zero, if_false, reduceCtorEq, if_neg]
          exact ih j (f s) (Nat.lt_of_succ_lt_succ hk)

theorem runTry_preserves (P : BgState → Prop) :
    ∀ (steps : List (BgState → BgState)),
    (∀ f ∈ steps, ∀ t : BgState, P t → P (f t)) →
    ∀ (failAt : Option Nat) (s : BgState), P s → P (runTry steps failAt s).2 := by
  intro steps
  induction steps with
  | nil => intro _ failAt s hs; simpa [runTry] using hs
  | cons f rest ih =>
      intro hstep failAt s hs
      by_cases hf : failAt = some 0
      · simpa [runTry, hf] using hs
      · simp only [runTry, if_neg hf]
        exact ih (fun g hg t ht => hstep g (List.mem_cons_of_mem f hg) t ht) _ _
          (hstep f (List.mem_cons_self f rest) s hs)

theorem trySteps_attempts (env : DomEnv) (rand : Nat → ℚ) :
    ∀ f ∈ trySteps env rand, ∀ t : BgState,
    (f t).constructionAttempts = t.constructionAttempts := by
  intro f hf t
  simp only [trySteps, List.mem_cons, List.not_mem_nil, or_false] at hf
  rcases hf with h | h | h | h | h | h | h <;> subst h <;>
    cases hg : t.group <;>
      simp [stepScene, stepCamera, stepRenderer, stepParticles, stepLights,
        stepResizeListener, stepAnimate, animateStep, hg]

theorem catchHandler_group (env : DomEnv) (s : BgState) :
    (catchHandler env s).group = s.group := by
  unfold catchHandler
  split <;> rfl

theorem catchHandler_attempts (env : DomEnv) (s : BgState) :
    (catchHandler env s).constructionAttempts = s.constructionAttempts := by
  unfold catchHandler
  split <;> rfl

end TryRunner

/-- Claim C5: whenever the canvas is present and some statement of the
construction block throws (`failAt = some k` with `k` a real statement
index), `init3DBackground` absorbs the exception: the try body threw, the
canvas ends up hidden, the error is logged, and construction was
attempted exactly once (no retry). -/
theorem claim5_construction_failure_caught (env : DomEnv) (rand : Nat → ℚ) (k : Nat)
    (h : env.canvasPresent = true) (hk : k < (trySteps env rand).length) :
    tryThrew env rand (some k) = true ∧
    (init3DBackground env rand (some k)).canvasHidden = true ∧
    "Error initializing 3D background:" ∈ (init3DBackground env rand (some k)).errorsLogged ∧
    (init3DBackground env rand (some k)).constructionAttempts = 1 := by
  have h1 : (runTry (trySteps env rand) (some k)
      { initialBgState with constructionAttempts := 1 }).1 = true :=
    runTry_throws _ k _ hk
  have h2 : ((runTry (trySteps env rand) (some k)
      { initialBgState with constructionAttempts := 1 }).2).constructionAttempts = 1 :=
    runTry_preserves (fun t => t.constructionAttempts = 1) _
      (fun f hf t ht => (trySteps_attempts env rand f hf t).trans ht) (some k) _ rfl
  refine ⟨?_, ?_, ?_, ?_⟩
  · simpa [tryThrew] using h1
  · simp [init3DBackground, h, h1, catchHandler]
  · simp [init3DBackground, h, h1, catchHandler]
  · simp [init3DBackground, h, h1, catchHandler, h2]

/-- Witness for C5: the very first construction statement
(`new THREE.Scene()`) throws. -/
theorem claim5_construction_failure_caught_witness :
    tryThrew sampleEnv sampleRand (some 0) = true ∧
    (init3DBackground sampleEnv sampleRand (some 0)).canvasHidden = true ∧
    "Error initializing 3D background:" ∈
      (init3DBackground sampleEnv sampleRand (some 0)).errorsLogged ∧
    (init3DBackground sampleEnv sampleRand (some 0)).constructionAttempts = 1 :=
  claim5_construction_failure_caught sampleEnv sampleRand 0 rfl (by simp [trySteps])

/-- Group-rotation invariant: whenever the group exists, its x-axis
rotation equals its y-axis rotation. -/
def groupRotSync (s : BgState) : Prop :=
  ∀ g : GroupState, s.group = some g → g.rotX = g.rotY

theorem animateStep_rotSync (s : BgState) (hs : groupRotSync s) :
    groupRotSync (animateStep s) := by
  intro g hg
  cases htg : s.group with
  | none => simp [animateStep, htg] at hg
  | some g0 =>
      rw [animateStep_group s g0 htg] at hg
      have hxy := hs g0 htg
      injection hg with hgeq
      subst hgeq
      simp [hxy]

theorem tickN_rotSync (n : Nat) : ∀ s : BgState, groupRotSync s →
    groupRotSync (tickN n s) := by
  induction n with
  | zero => intro s hs; simpa [tickN] using hs
  | succ m ih => intro s hs; exact ih (animateStep s) (animateStep_rotSync s hs)

theorem trySteps_rotSync (env : DomEnv) (rand : Nat → ℚ) :
    ∀ f ∈ trySteps env rand, ∀ t : BgState, groupRotSync t → groupRotSync (f t) := by
  intro f hf t ht
  simp only [trySteps, List.mem_cons, List.not_mem_nil, or_false] at hf
  rcases hf with h | h | h | h | h | h | h <;> subst h
  · intro g hg; exact ht g (by simpa [stepScene] using hg)
  · intro g hg; exact ht g (by simpa [stepCamera] using hg)
  · intro g hg; exact ht g (by simpa [stepRenderer] using hg)
  · intro g hg
    simp only [stepParticles, Option.some.injEq] at hg
    subst hg
    rfl
  · intro g hg; exact ht g (by simpa [stepLights] using hg)
  · intro g hg; exact ht g (by simpa [stepResizeListener] using hg)
  · exact animateStep_rotSync t ht

theorem init_rotSync (env : DomEnv) (rand : Nat → ℚ) (failAt : Option Nat) :
    groupRotSync (init3DBackground env rand failAt) := by
  unfold init3DBackground
  by_cases h : env.canvasPresent = true
  · have base : groupRotSync { initialBgState with constructionAttempts := 1 } := by
      intro g hg; simp [initialBgState] at hg
    have hr := runTry_preserves groupRotSync _ (trySteps_rotSync env rand) failAt _ base
    simp only [h, if_true]
    split
    · intro g hg
      rw [catchHandler_group] at hg
      exact hr g hg
    · exact hr
  · simp only [h, if_false, Bool.false_eq_true]
    intro g hg
    simp [initialBgState] at hg

/-- Claim C9: the group is created with rotation zero on both axes, a
tick preserves equality of the x- and y-axis rotations (both are bumped
by the same constant 0.0005), and from initialization onward — after any
number of ticks, for any environment and any failure pattern — the
x-axis rotation always equals the y-axis rotation. -/
theorem claim9_rotation_axes_equal :
    (∀ (rand : Nat → ℚ) (s : BgState), (stepParticles rand s).group =
        some { rotX := 0, rotY := 0, rotZ := 0, particles := mkParticles rand 500 }) ∧
    (∀ s : BgState, groupRotSync s → groupRotSync (animateStep s)) ∧
    (∀ (env : DomEnv) (rand : Nat → ℚ) (failAt : Option Nat) (n : Nat),
      groupRotSync (tickN n (init3DBackground env rand failAt))) := by
  refine ⟨?_, ?_, ?_⟩
  · intro rand s; simp [stepParticles]
  · exact fun s hs => animateStep_rotSync s hs
  · intro env rand failAt n
    exact tickN_rotSync n _ (init_rotSync env rand failAt)

/-- Witness for C9: one tick on the uninitialized state preserves the
invariant (vacuously true there). -/
theorem claim9_rotation_axes_equal_witness :
    groupRotSync (animateStep initialBgState) :=
  claim9_rotation_axes_equal.2.1 initialBgState
    (fun g hg => by simp [initialBgState] at hg)

/-- No positive or negative number of full turns can bridge the gap
between 1/2000 radians and zero. -/
theorem small_ne_two_pi_mul (k : ℤ) : (1 / 2000 : ℝ) ≠ k * (2 * Real.pi) := by
  intro h
  rcases Int.lt_or_le k 1 with h1 | h1
  · have hk0 : (k : ℝ) ≤ 0 := by exact_mod_cast Int.lt_add_one_iff.mp h1
    nlinarith [Real.pi_pos]
  · have hk1 : (1 : ℝ) ≤ (k : ℝ) := by exact_mod_cast h1
    nlinarith [Real.pi_gt_three]

/-- Counterexample to claim C1 as stated: at the concrete input
(canvas present, 800×600 viewport, `Math.random` ≡ 1/2) and N = 0 ticks,
the group rotation of the state produced by `init3DBackground` is
1/2000 = 0.0005 on the x axis, which is not congruent to
N × 0.0005 = 0 modulo 2π: `init3DBackground` does not produce a state
with group rotation zero, because its try body ends with a direct call
to `animate()` which already performed one increment. -/
theorem claim1_counterexample :
    ∃ g : GroupState,
      (tickN 0 (init3DBackground sampleEnv sampleRand none)).group = some g ∧
      g.rotX = 1 / 2000 ∧ g.rotX ≠ (0 : ℚ) * 0.0005 ∧
      ∀ k : ℤ, (g.rotX : ℝ) ≠ (0 : ℝ) * 0.0005 + k * (2 * Real.pi) := by
  refine ⟨{ rotX := 0.0005, rotY := 0.0005, rotZ := 0
            particles := mkParticles sampleRand 500 }, ?_, ?_, ?_, ?_⟩
  · rw [show tickN 0 (init3DBackground sampleEnv sampleRand none)
        = init3DBackground sampleEnv sampleRand none from rfl]
    rw [init_success sampleEnv sampleRand rfl]
  · norm_num
  · norm_num
  · intro k hk
    refine small_ne_two_pi_mul k ?_
    calc (1 / 2000 : ℝ) = ((0.0005 : ℚ) : ℝ) := by norm_num
    _ = (0 : ℝ) * 0.0005 + k * (2 * Real.pi) := hk
    _ = k * (2 * Real.pi) := by ring

/-- Claim C1 as amended: starting from the state produced by
`init3DBackground` — whose group rotation is already 0.0005 on both
affected axes, because the try body ends with a direct synchronous call
to `animate()` — after N further invocations of the frame callback the
cumulative group rotation on each of the two affected axes equals
(N + 1) × 0.0005 radians (and hence is congruent to that value mod 2π),
while every particle keeps its construction-time position, rotation and
scale. -/
theorem claim1_tick_rotation (env : DomEnv) (rand : Nat → ℚ) (n : Nat)
    (h : env.canvasPresent = true) :
    ∃ g0 gn : GroupState,
      (init3DBackground env rand none).group = some g0 ∧
      g0.rotX = 0.0005 ∧ g0.rotY = 0.0005 ∧
      g0.particles = mkParticles rand 500 ∧
      (tickN n (init3DBackground env rand none)).group = some gn ∧
      gn.rotX = ((n : ℚ) + 1) * 0.0005 ∧ gn.rotY = ((n : ℚ) + 1) * 0.0005 ∧
      (∃ k : ℤ, (gn.rotX : ℝ) = ((n : ℝ) + 1) * 0.0005 + k * (2 * Real.pi)) ∧
      (∃ k : ℤ, (gn.rotY : ℝ) = ((n : ℝ) + 1) * 0.0005 + k * (2 * Real.pi)) ∧
      gn.particles = g0.particles := by
  have hg0 : (init3DBackground env rand none).group =
      some { rotX := 0.0005, rotY := 0.0005, rotZ := 0
             particles := mkParticles rand 500 } := by
    rw [init_success env rand h]
  have hgn := tickN_group n _ _ hg0
  refine ⟨_, _, hg0, rfl, rfl, rfl, hgn, ?_, ?_, ?_, ?_, rfl⟩
  · push_cast
    norm_num
    ring
  · push_cast
    norm_num
    ring
  · refine ⟨0, ?_⟩
    push_cast
    norm_num
    ring
  · refine ⟨0, ?_⟩
    push_cast
    norm_num
    ring

/-- Witness for C1 (amended) at the concrete input: canvas present,
800×600 viewport, `Math.random` ≡ 1/2, N = 3. -/
theorem claim1_tick_rotation_witness :
    ∃ g0 gn : GroupState,
      (init3DBackground sampleEnv sampleRand none).group = some g0 ∧
      g0.rotX = 0.0005 ∧ g0.rotY = 0.0005 ∧
      g0.particles = mkParticles sampleRand 500 ∧
      (tickN 3 (init3DBackground sampleEnv sampleRand none)).group = some gn ∧
      gn.rotX = ((3 : ℚ) + 1) * 0.0005 ∧ gn.rotY = ((3 : ℚ) + 1) * 0.0005 ∧
      (∃ k : ℤ, (gn.rotX : ℝ) = ((3 : ℝ) + 1) * 0.0005 + k * (2 * Real.pi)) ∧
      (∃ k : ℤ, (gn.rotY : ℝ) = ((3 : ℝ) + 1) * 0.0005 + k * (2 * Real.pi)) ∧
      gn.particles = g0.particles := by
  have := claim1_tick_rotation sampleEnv sampleRand 3 rfl
  simpa using this

/-- Claim C3 (code bug): already the first particle constructed — shown
here at the concrete `Math.random` stream ≡ 1/2 — has an undefined
y-axis rotation component: the source passes `Math.react` (a nonexistent
`Math` property, i.e. the JS value `undefined`) as the second argument of
`rotation.set`, so the stored y-rotation is no rational number in [0, π]
at all, contradicting the claim that every rotation component lies in
[0, π]. The x and z components and the position and scale of the same
particle do satisfy their claimed ranges. -/
theorem claim3_particle_rotY_undefined :
    (mkParticle sampleRand 0).rotY = none ∧
    (¬ ∃ v : ℚ, (mkParticle sampleRand 0).rotY = some v ∧
        0 ≤ (v : ℝ) ∧ (v : ℝ) ≤ Real.pi) ∧
    (-25 ≤ (mkParticle sampleRand 0).posX ∧ (mkParticle sampleRand 0).posX ≤ 25) ∧
    (1 / 2 ≤ (mkParticle sampleRand 0).scale ∧ (mkParticle sampleRand 0).scale ≤ 1) := by
  refine ⟨rfl, ?_, ?_, ?_⟩
  · rintro ⟨v, hv, -, -⟩
    simp [mkParticle] at hv
  · constructor <;> norm_num [mkParticle, sampleRand]
  · constructor <;> norm_num [mkParticle, sampleRand]

/-- Claim C8: provided the injected Firebase config (when present) is
parseable — so that evaluation reaches the listener-registration
statement — top-level evaluation of the module registers the
`DOMContentLoaded` listener and then faults: `addEventListener` returns
`undefined` and the trailing `()` invokes it, so the
`initializeFirebase()` call on the last line is never executed. -/
theorem claim8_toplevel_fault (env : PageEnv) (rand : Nat → ℚ) (failAt : Option Nat)
    (h : env.firebaseConfigInjected = false ∨ env.injectedConfigParses = true) :
    (topLevelEval env rand failAt).faulted = true ∧
    (topLevelEval env rand failAt).domListenerRegistered = true ∧
    (topLevelEval env rand failAt).firebaseInitCalled = false := by
  have hcond : (env.firebaseConfigInjected && !env.injectedConfigParses) = false := by
    rcases h with h | h <;> simp [h]
  refine ⟨?_, ?_, ?_⟩ <;>
    simp [topLevelEval, hcond, callAsFunction, addEventListenerReturn]

/-- Witness for C8: no injected config, canvas present, 800×600. -/
theorem claim8_toplevel_fault_witness :
    (topLevelEval { dom := sampleEnv, firebaseConfigInjected := false
                    injectedConfigParses := true } sampleRand none).faulted = true ∧
    (topLevelEval { dom := sampleEnv, firebaseConfigInjected := false
                    injectedConfigParses := true } sampleRand none).domListenerRegistered = true ∧
    (topLevelEval { dom := sampleEnv, firebaseConfigInjected := false
                    injectedConfigParses := true } sampleRand none).firebaseInitCalled = false :=
  claim8_toplevel_fault _ sampleRand none (Or.inl rfl)

/-- Claim C10: for every submission attempt that passes the connection
check, whether the document-store write succeeds or throws, by the end of
the handler the submit button is re-enabled and its label is restored to
its pre-submission value (the `finally` block runs in both cases). -/
theorem claim10_submit_restores_button (fb : FirebaseCtx) (att : SubmitAttempt)
    (st : ContactFormState) (saved : List SavedDoc)
    (hdb : fb.dbSet = true) (huid : truthyString fb.userId = true) :
    (onSubmit fb att st saved).1.button.disabled = false ∧
    (onSubmit fb att st saved).1.button.innerHTML = st.button.innerHTML := by
  cases hthrow : att.addDocThrows <;>
    simp [onSubmit, hdb, huid, hthrow]

/-- Witness for C10: connection established, `addDoc` throws. -/
theorem claim10_submit_restores_button_witness :
    (onSubmit { dbSet := true, userId := some "user-1" }
        { name := "Ada", email := "ada@example.com", message := "hi", addDocThrows := true }
        { button := { disabled := false, innerHTML := "Send Message" }
          formMessage := "", formMessageClass := "", formWasReset := false }
        []).1.button.disabled = false ∧
    (onSubmit { dbSet := true, userId := some "user-1" }
        { name := "Ada", email := "ada@example.com", message := "hi", addDocThrows := true }
        { button := { disabled := false, innerHTML := "Send Message" }
          formMessage := "", formMessageClass := "", formWasReset := false }
        []).1.button.innerHTML =
      ({ button := { disabled := false, innerHTML := "Send Message" }
         formMessage := "", formMessageClass := ""
         formWasReset := false } : ContactFormState).button.innerHTML :=
  claim10_submit_restores_button _ _ _ [] rfl rfl

end Portfolio
